import Mathlib

/-!
Verification of the QEMU instance reconciliation core of
cluster-api-provider-proxmox (cloud/services/compute/instance/qemu.go).

The Go code is shallowly embedded: the scope collaborator becomes an
explicit `Scope` record, pointer mutation of the create-options struct
becomes explicit state passing, the external collaborators (VM lookup,
existence check, scheduler, image staging, platform create, identity
persistence) become an `Env` record of pre-determined outcomes, and the
order of collaborator invocations is recorded as an explicit `Step` trace.
-/

/-! ### Helper lemmas about the disk-slot loops -/

/-! ### Characterization of the Storage Injector's branches -/

/-! ### Slot characterization of the disk loops -/

/-! ### Concrete fixtures -/

/-- One extra disk of the hardware spec: a storage pool name and a size
specifier (infrav1 Hardware.ExtraDisks element, fields Storage and Size). -/
structure ExtraDisk where
  storage : String
  size : String
  deriving Repr, DecidableEq

/-- Network part of the desired spec. `ipConfig` is the already-rendered
wire string of network.IPConfig.String(). -/
structure Network where
  ipConfig : String
  nameServer : String
  searchDomain : String
  deriving Repr, DecidableEq

/-- Hardware part of the desired spec, as read through the scope getters.
`networkDevice` is the rendered hardware.NetworkDevice.String(). -/
structure Hardware where
  cpu : Nat
  cpuType : String
  cpuLimit : Nat
  memory : Nat
  sockets : Nat
  bios : String
  networkDevice : String
  extraDisks : List ExtraDisk
  deriving Repr, DecidableEq

/-- Options part of the desired spec (scope.GetOptions()). String-rendered
collaborator values (HugePages.String(), Tags.String()) are kept as
strings. -/
structure InstanceOptions where
  acpi : Bool
  arch : String
  balloon : Nat
  description : String
  hugePages : String
  keepHugePages : Bool
  kvm : Bool
  localTime : Bool
  lock : String
  numa : Bool
  onBoot : Bool
  osType : String
  protection : Bool
  reboot : Bool
  shares : Nat
  tablet : Bool
  tags : String
  timeDriftFix : Bool
  template : Bool
  vcpus : Nat
  vmGenerationID : String
  deriving Repr, DecidableEq

/-- The scope collaborator of the service: every getter the qemu.go code
reads, plus the mutable identity fields (vmid, nodeName, storage) that
SetVMID / SetNodeName / SetStorage write. -/
structure Scope where
  name : String
  clusterStorageName : String
  storage : String
  image : String
  network : Network
  hardware : Hardware
  options : InstanceOptions
  nodeName : String
  vmid : Option Nat
  deriving Repr, DecidableEq

/-- SCSI slots of api.VirtualMachineCreateOptions (slots 0..6 are the ones
qemu.go writes: root disk at 0, extra disks at 1..6). -/
structure Scsi where
  scsi0 : String
  scsi1 : String
  scsi2 : String
  scsi3 : String
  scsi4 : String
  scsi5 : String
  scsi6 : String
  deriving Repr, DecidableEq

/-- IDE slots of the create options; qemu.go only writes Ide2 (cloud-init
cdrom device). -/
structure Ide where
  ide2 : String
  deriving Repr, DecidableEq

/-- The platform-facing create request (api.VirtualMachineCreateOptions),
restricted to the fields qemu.go sets; int8 wire flags are modelled as
Int. The Storage field is not set by the builder literal, so its Go zero
value is the empty string there. -/
structure VirtualMachineCreateOptions where
  acpi : Int
  agent : String
  arch : String
  balloon : Nat
  bios : String
  boot : String
  ciCustom : String
  cores : Nat
  cpu : String
  cpuLimit : Nat
  description : String
  hugePages : String
  ide : Ide
  ipConfig0 : String
  keepHugePages : Int
  kvm : Int
  localTime : Int
  lock : String
  memory : Nat
  name : String
  nameServer : String
  net0 : String
  numa : Int
  node : String
  onBoot : Int
  osType : String
  protection : Int
  reboot : Int
  scsi : Scsi
  scsiHw : String
  searchDomain : String
  serial0 : String
  shares : Nat
  sockets : Nat
  storage : String
  tablet : Int
  tags : String
  tdf : Int
  template : Int
  vcpus : Nat
  vmGenID : String
  vmid : Option Nat
  vga : String
  deriving Repr, DecidableEq

/-- const bootDvice = "scsi0" -/
def bootDvice : String := "scsi0"

/-- api.VirtioScsiPci, the scsihw constant used by the builder (value from
the proxmox-go api package). -/
def VirtioScsiPci : String := "virtio-scsi-pci"

/-- Go boolToInt8: true ↦ 1, false ↦ 0. -/
def boolToInt8 (b : Bool) : Int :=
  if b then 1 else 0

/-- Modelled from the spec: rawImageFilePath builds the staged raw-image
file path from the image reference; its definition lives outside the
visible source (only its call sites are shown). The claims treat it as an
uninterpreted string-valued function of the image reference, so it is
modelled as the reference itself. -/
def rawImageFilePath (image : String) : String := image

/-- Modelled from the spec: userSnippetPath names the user cloud-init
snippet for a VM name; its definition lives outside the visible source.
The claims treat it as an uninterpreted string-valued function of the VM
name, so it is modelled as the name itself. -/
def userSnippetPath (vmName : String) : String := vmName

/-- Wire string of one extra disk at zero-based position `i`:
fmt.Sprintf("%s:%d,%s", disk.Storage, i+1, disk.Size). -/
def extraDiskString (disk : ExtraDisk) (i : Nat) : String :=
  disk.storage ++ ":" ++ toString (i + 1) ++ "," ++ disk.size

/-- Body of the builder's `for i, disk := range extraDisks` switch:
cases 0..5 write Scsi1..Scsi6, any other index falls through. -/
def builderAssign (d : Scsi) (i : Nat) (disk : ExtraDisk) : Scsi :=
  match i with
  | 0 => { d with scsi1 := extraDiskString disk 0 }
  | 1 => { d with scsi2 := extraDiskString disk 1 }
  | 2 => { d with scsi3 := extraDiskString disk 2 }
  | 3 => { d with scsi4 := extraDiskString disk 3 }
  | 4 => { d with scsi5 := extraDiskString disk 4 }
  | 5 => { d with scsi6 := extraDiskString disk 5 }
  | _ => d

/-- The builder's range loop over the extra disks, position `i` onwards. -/
def builderLoop (d : Scsi) (i : Nat) : List ExtraDisk → Scsi
  | [] => d
  | disk :: rest => builderLoop (builderAssign d i disk) (i + 1) rest

/-- generateVMOptions: the Option Builder. Pure translation of the Go
function: provisional storage is the scope's image storage name, extra
disks are trimmed to the first 6 when more than 5 are declared (warning
logged, no error), and the request literal copies the scalar fields. -/
def generateVMOptions (s : Scope) : VirtualMachineCreateOptions :=
  let vmName := s.name
  let snippetStorageName := s.clusterStorageName
  let imageStorageName := s.storage
  let network := s.network
  let hardware := s.hardware
  let options := s.options
  let cicustom := "user=" ++ snippetStorageName ++ ":" ++ userSnippetPath vmName
  let ide2 := "file=" ++ imageStorageName ++ ":cloudinit,media=cdrom"
  let net0 := hardware.networkDevice
  let scsiDisks : Scsi :=
    { scsi0 := imageStorageName ++ ":0,import-from=" ++ rawImageFilePath s.image
      scsi1 := "", scsi2 := "", scsi3 := "", scsi4 := "", scsi5 := "", scsi6 := "" }
  let extraDisks := s.hardware.extraDisks
  let extraDisks := if extraDisks.length > 5 then extraDisks.take 6 else extraDisks
  let scsiDisks := builderLoop scsiDisks 0 extraDisks
  { acpi := boolToInt8 options.acpi
    agent := "enabled=1"
    arch := options.arch
    balloon := options.balloon
    bios := hardware.bios
    boot := "order=" ++ bootDvice
    ciCustom := cicustom
    cores := hardware.cpu
    cpu := hardware.cpuType
    cpuLimit := hardware.cpuLimit
    description := options.description
    hugePages := options.hugePages
    ide := { ide2 := ide2 }
    ipConfig0 := network.ipConfig
    keepHugePages := boolToInt8 options.keepHugePages
    kvm := boolToInt8 options.kvm
    localTime := boolToInt8 options.localTime
    lock := options.lock
    memory := hardware.memory
    name := vmName
    nameServer := network.nameServer
    net0 := net0
    numa := boolToInt8 options.numa
    node := s.nodeName
    onBoot := boolToInt8 options.onBoot
    osType := options.osType
    protection := boolToInt8 options.protection
    reboot := boolToInt8 options.reboot
    scsi := scsiDisks
    scsiHw := VirtioScsiPci
    searchDomain := network.searchDomain
    serial0 := "socket"
    shares := options.shares
    sockets := hardware.sockets
    tablet := boolToInt8 options.tablet
    tags := options.tags
    tdf := boolToInt8 options.timeDriftFix
    template := boolToInt8 options.template
    vcpus := options.vcpus
    vmGenID := options.vmGenerationID
    vmid := s.vmid
    storage := ""
    vga := "serial0" }

/-- Body of the injector's `for i, disk := range extraDisks` switch:
cases 0..4 write Scsi1..Scsi5 (Scsi6 has no case here), any other index
falls through. -/
def injectorAssign (d : Scsi) (i : Nat) (disk : ExtraDisk) : Scsi :=
  match i with
  | 0 => { d with scsi1 := extraDiskString disk 0 }
  | 1 => { d with scsi2 := extraDiskString disk 1 }
  | 2 => { d with scsi3 := extraDiskString disk 2 }
  | 3 => { d with scsi4 := extraDiskString disk 3 }
  | 4 => { d with scsi5 := extraDiskString disk 4 }
  | _ => d

/-- The injector's range loop over the extra disks, position `i` onwards. -/
def injectorLoop (d : Scsi) (i : Nat) : List ExtraDisk → Scsi
  | [] => d
  | disk :: rest => injectorLoop (injectorAssign d i disk) (i + 1) rest

/-- injectVMOption: the Storage Injector. The Go function mutates the
request through a pointer and returns either that pointer or nil; here the
first component is the returned value (`none` models the nil return) and
the second component is the state of the request after the call (the Go
mutations happen in order: Ide2, Storage, Scsi0, then the extra-disk loop
unless it bailed out). -/
def injectVMOption (s : Scope) (vmOption : VirtualMachineCreateOptions)
    (storage : String) :
    Option VirtualMachineCreateOptions × VirtualMachineCreateOptions :=
  let ide2 := "file=" ++ storage ++ ":cloudinit,media=cdrom"
  let vmOption := { vmOption with ide := { vmOption.ide with ide2 := ide2 } }
  let vmOption := { vmOption with storage := storage }
  let vmOption := { vmOption with
    scsi := { vmOption.scsi with
      scsi0 := storage ++ ":0,import-from=" ++ rawImageFilePath s.image } }
  let extraDisks := s.hardware.extraDisks
  if extraDisks.length > 0 then
    if extraDisks.length > 5 then
      (none, vmOption)
    else
      let vmOption :=
        { vmOption with scsi := injectorLoop vmOption.scsi 0 extraDisks }
      (some vmOption, vmOption)
  else
    (some vmOption, vmOption)

/-- Spec-side accessor for a numbered SCSI slot (slot 0 is the root disk,
slots 1..6 the extra-disk slots); indices outside 0..6 read as empty. -/
def scsiSlot (d : Scsi) : Nat → String
  | 0 => d.scsi0
  | 1 => d.scsi1
  | 2 => d.scsi2
  | 3 => d.scsi3
  | 4 => d.scsi4
  | 5 => d.scsi5
  | 6 => d.scsi6
  | _ => ""

/-- Errors of the embedded collaborator calls. `notFound` is
rest.NotFoundErr; `err msg` is any other error (fmt.Errorf and collaborator
failures carry their message). -/
inductive PError where
  | notFound
  | err (msg : String)
  deriving Repr, DecidableEq

/-- rest.IsNotFound. -/
def isNotFound : PError → Bool
  | .notFound => true
  | .err _ => false

/-- The "qemu %s already exists" duplicate-instance error built at
qemu.go:35. -/
def duplicateErr (name : String) : PError :=
  .err ("qemu " ++ name ++ " already exists")

/-- The inner VM resource of proxmox.VirtualMachine (field VM, carrying
VMID). -/
structure VMResource where
  vmid : Nat
  deriving Repr, DecidableEq

/-- proxmox.VirtualMachine, restricted to the fields qemu.go reads:
VM.VMID and Node. -/
structure VirtualMachine where
  vm : VMResource
  node : String
  deriving Repr, DecidableEq

/-- The scheduler's placement result (framework result: Node(), VMID(),
Storage()). -/
structure ScheduleResult where
  node : String
  vmid : Nat
  storage : String
  deriving Repr, DecidableEq

/-- One collaborator invocation, recorded in order. `build` is the pure
Option Builder call, `inject` the Storage Injector application; the rest
are the external collaborator calls. -/
inductive Step where
  | lookup
  | existsCheck
  | build
  | placement
  | inject
  | imageStage
  | createVM
  | patch
  deriving Repr, DecidableEq

/-- Outcomes of the external collaborators for one reconciliation pass:
lookup-by-ID, existence-by-name (Go returns a bool and an error side by
side), the scheduler, image staging, the platform create call, and
identity persistence (PatchObject). -/
structure Env where
  vmLookup : Except PError VirtualMachine
  vmExists : Bool × Option PError
  schedule : Except PError ScheduleResult
  cloudImage : Option PError
  createVM : Except PError VirtualMachine
  patch : Option PError
  deriving Repr

/-- getQEMU: with a persisted VM ID, look the VM up by it (one `lookup`
step); with none, return rest.NotFoundErr without any remote call. -/
def getQEMU (env : Env) (s : Scope) :
    Except PError VirtualMachine × List Step :=
  match s.vmid with
  | some _ => (env.vmLookup, [.lookup])
  | none => (.error .notFound, [])

/-- Result of one orchestration phase: outcome, scope state after it, the
build request state as last held (none when the builder never ran), and
the ordered trace of steps. -/
structure RunResult where
  outcome : Except PError VirtualMachine
  scope : Scope
  vmoption : Option VirtualMachineCreateOptions
  trace : List Step
  deriving Repr

/-- createQEMU: build the provisional request, schedule it, persist
node/vmid into the scope, inject the finalized storage (discarding the
injector's returned value, as the Go caller does), stage the cloud image,
and submit the create call; each failing step returns its error with no
later step taken. -/
def createQEMU (env : Env) (s : Scope) : RunResult :=
  let vmoption := generateVMOptions s
  match env.schedule with
  | .error e => ⟨.error e, s, some vmoption, [.build, .placement]⟩
  | .ok result =>
    let s := { s with nodeName := result.node, vmid := some result.vmid }
    let vmoption := (injectVMOption s vmoption result.storage).2
    let s := { s with storage := result.storage }
    match env.cloudImage with
    | some e =>
        ⟨.error e, s, some vmoption, [.build, .placement, .inject, .imageStage]⟩
    | none =>
      match env.createVM with
      | .error e =>
          ⟨.error e, s, some vmoption,
            [.build, .placement, .inject, .imageStage, .createVM]⟩
      | .ok vm =>
          ⟨.ok vm, s, some vmoption,
            [.build, .placement, .inject, .imageStage, .createVM]⟩

/-- The tail of reconcileQEMU (qemu.go:47-52): refresh the identity from
the live VM and persist it via PatchObject; a persistence failure is
returned as the reconciliation's error. -/
def persistIdentity (env : Env) (s : Scope) (qemu : VirtualMachine)
    (vmoption : Option VirtualMachineCreateOptions) (tr : List Step) : RunResult :=
  let s := { s with vmid := some qemu.vm.vmid, nodeName := qemu.node }
  match env.patch with
  | some e => ⟨.error e, s, vmoption, tr ++ [.patch]⟩
  | none => ⟨.ok qemu, s, vmoption, tr ++ [.patch]⟩

/-- reconcileQEMU: look up by persisted ID; propagate non-not-found lookup
errors; on not-found run the duplicate-name guard (an existing VM of the
same name yields the duplicate error, a failing check propagates its own
error, and in both cases creation is skipped); otherwise create; finally
refresh and persist the identity. -/
def reconcileQEMU (env : Env) (s : Scope) : RunResult :=
  match getQEMU env s with
  | (.ok qemu, tr) => persistIdentity env s qemu none tr
  | (.error e, tr) =>
    if !(isNotFound e) then ⟨.error e, s, none, tr⟩
    else
      match env.vmExists with
      | (true, _) =>
          ⟨.error (duplicateErr s.name), s, none, tr ++ [.existsCheck]⟩
      | (false, some cerr) =>
          ⟨.error cerr, s, none, tr ++ [.existsCheck]⟩
      | (false, none) =>
        match createQEMU env s with
        | ⟨.error e2, s2, vmoption2, tr2⟩ =>
            ⟨.error e2, s2, vmoption2, tr ++ [.existsCheck] ++ tr2⟩
        | ⟨.ok qemu, s2, vmoption2, tr2⟩ =>
            persistIdentity env s2 qemu vmoption2 (tr ++ [.existsCheck] ++ tr2)

/-- The three unconditional overwrites of injectVMOption (qemu.go:196-203):
cloud-init slot, top-level storage field, root-disk slot. -/
def injectOverwrite (s : Scope) (r : VirtualMachineCreateOptions)
    (storage : String) : VirtualMachineCreateOptions :=
  { r with
    ide := { r.ide with ide2 := "file=" ++ storage ++ ":cloudinit,media=cdrom" }
    storage := storage
    scsi := { r.scsi with
      scsi0 := storage ++ ":0,import-from=" ++ rawImageFilePath s.image } }

/-- The injector's full mutation when the extra-disk loop also runs
(qemu.go:205-225 with 1..5 declared extra disks). -/
def injectFull (s : Scope) (r : VirtualMachineCreateOptions)
    (storage : String) : VirtualMachineCreateOptions :=
  { injectOverwrite s r storage with
    scsi := injectorLoop (injectOverwrite s r storage).scsi 0
      s.hardware.extraDisks }

def exNetwork : Network :=
  { ipConfig := "ip=dhcp", nameServer := "8.8.8.8", searchDomain := "example.com" }

def exOptions : InstanceOptions :=
  { acpi := true, arch := "x86_64", balloon := 0, description := "",
    hugePages := "1024", keepHugePages := false, kvm := true,
    localTime := false, lock := "", numa := false, onBoot := true,
    osType := "l26", protection := false, reboot := false, shares := 0,
    tablet := false, tags := "", timeDriftFix := false, template := false,
    vcpus := 0, vmGenerationID := "" }

def exScope (disks : List ExtraDisk) : Scope :=
  { name := "vm-a", clusterStorageName := "snip", storage := "images",
    image := "jammy.img", network := exNetwork,
    hardware :=
      { cpu := 2, cpuType := "host", cpuLimit := 0, memory := 2048,
        sockets := 1, bios := "seabios",
        networkDevice := "virtio,bridge=vmbr0", extraDisks := disks },
    options := exOptions, nodeName := "", vmid := none }

def exDisks6 : List ExtraDisk :=
  [⟨"local", "10G"⟩, ⟨"local", "20G"⟩, ⟨"lvm", "30G"⟩, ⟨"lvm", "40G"⟩,
    ⟨"ceph", "50G"⟩, ⟨"ceph", "60G"⟩]

def exDisks7 : List ExtraDisk := exDisks6 ++ [⟨"nfs", "70G"⟩]

def exVM : VirtualMachine := ⟨⟨100⟩, "node1"⟩

def exRes : ScheduleResult := ⟨"node1", 100, "fast"⟩

def exEnvOk : Env :=
  { vmLookup := .error .notFound, vmExists := (false, none),
    schedule := .ok exRes, cloudImage := none, createVM := .ok exVM,
    patch := none }

def exEnvExistsDup : Env :=
  { vmLookup := .error .notFound, vmExists := (true, none),
    schedule := .error (.err "unused"), cloudImage := none,
    createVM := .error (.err "unused"), patch := none }

def exEnvExistsErr : Env :=
  { vmLookup := .error .notFound, vmExists := (false, some (.err "boom")),
    schedule := .error (.err "unused"), cloudImage := none,
    createVM := .error (.err "unused"), patch := none }

def exEnvPatchFail : Env :=
  { vmLookup := .ok exVM, vmExists := (false, none),
    schedule := .error (.err "unused"), cloudImage := none,
    createVM := .error (.err "unused"), patch := some (.err "patch failed") }

def exDisks2 : List ExtraDisk := [⟨"local", "10G"⟩, ⟨"local", "20G"⟩]

def exEnvLookup : Env :=
  { vmLookup := .ok exVM, vmExists := (false, none),
    schedule := .error (.err "unused"), cloudImage := none,
    createVM := .error (.err "unused"), patch := none }

def exEnvSchedErr : Env :=
  { vmLookup := .error .notFound, vmExists := (false, none),
    schedule := .error (.err "nosched"), cloudImage := none,
    createVM := .error (.err "unused"), patch := none }

def exEnvImgErr : Env :=
  { vmLookup := .error .notFound, vmExists := (false, none),
    schedule := .ok exRes, cloudImage := some (.err "imgfail"),
    createVM := .error (.err "unused"), patch := none }

def exEnvCreateErr : Env :=
  { vmLookup := .error .notFound, vmExists := (false, none),
    schedule := .ok exRes, cloudImage := none,
    createVM := .error (.err "createfail"), patch := none }

/-! ### Lemmas and theorems -/

lemma builderAssign_scsi0_comm (d : Scsi) (v : String) (i : Nat)
    (disk : ExtraDisk) :
    builderAssign { d with scsi0 := v } i disk
      = { builderAssign d i disk with scsi0 := v } := by
  match i with
  | 0 | 1 | 2 | 3 | 4 | 5 => rfl
  | n + 6 => rfl

lemma injectorAssign_scsi0_comm (d : Scsi) (v : String) (i : Nat)
    (disk : ExtraDisk) :
    injectorAssign { d with scsi0 := v } i disk
      = { injectorAssign d i disk with scsi0 := v } := by
  match i with
  | 0 | 1 | 2 | 3 | 4 => rfl
  | n + 5 => rfl

lemma builderLoop_scsi0_comm (l : List ExtraDisk) :
    ∀ (d : Scsi) (v : String) (i : Nat),
      builderLoop { d with scsi0 := v } i l
        = { builderLoop d i l with scsi0 := v } := by
  induction l with
  | nil => intro d v i; rfl
  | cons disk rest ih =>
      intro d v i
      show builderLoop (builderAssign { d with scsi0 := v } i disk) (i + 1) rest = _
      rw [builderAssign_scsi0_comm, ih]
      rfl

lemma injectorLoop_scsi0_comm (l : List ExtraDisk) :
    ∀ (d : Scsi) (v : String) (i : Nat),
      injectorLoop { d with scsi0 := v } i l
        = { injectorLoop d i l with scsi0 := v } := by
  induction l with
  | nil => intro d v i; rfl
  | cons disk rest ih =>
      intro d v i
      show injectorLoop (injectorAssign { d with scsi0 := v } i disk) (i + 1) rest = _
      rw [injectorAssign_scsi0_comm, ih]
      rfl

lemma injectorAssign_scsi0_eq (d : Scsi) (i : Nat) (disk : ExtraDisk) :
    (injectorAssign d i disk).scsi0 = d.scsi0 := by
  match i with
  | 0 | 1 | 2 | 3 | 4 => rfl
  | n + 5 => rfl

lemma injectorLoop_scsi0_eq (l : List ExtraDisk) :
    ∀ (d : Scsi) (i : Nat), (injectorLoop d i l).scsi0 = d.scsi0 := by
  induction l with
  | nil => intro d i; rfl
  | cons disk rest ih =>
      intro d i
      show (injectorLoop (injectorAssign d i disk) (i + 1) rest).scsi0 = _
      rw [ih, injectorAssign_scsi0_eq]

/-- C6 — The Storage Injector unconditionally overwrites the cloud-init
slot, the top-level storage field, and the root-disk slot with values
derived from `storage`, for every prior request state. -/
theorem qemu_c6_inject_overwrites (s : Scope)
    (r : VirtualMachineCreateOptions) (storage : String) :
    (injectVMOption s r storage).2.ide.ide2
        = "file=" ++ storage ++ ":cloudinit,media=cdrom"
    ∧ (injectVMOption s r storage).2.storage = storage
    ∧ (injectVMOption s r storage).2.scsi.scsi0
        = storage ++ ":0,import-from=" ++ rawImageFilePath s.image := by
  dsimp only [injectVMOption]
  split
  · split
    · exact ⟨rfl, rfl, rfl⟩
    · exact ⟨rfl, rfl, injectorLoop_scsi0_eq _ _ _⟩
  · exact ⟨rfl, rfl, rfl⟩

lemma injectVMOption_zero (s : Scope) (r : VirtualMachineCreateOptions)
    (st : String) (h : s.hardware.extraDisks.length = 0) :
    injectVMOption s r st
      = (some (injectOverwrite s r st), injectOverwrite s r st) := by
  dsimp only [injectVMOption]
  rw [if_neg (by omega)]
  rfl

lemma injectVMOption_le5 (s : Scope) (r : VirtualMachineCreateOptions)
    (st : String) (h0 : 0 < s.hardware.extraDisks.length)
    (h5 : s.hardware.extraDisks.length ≤ 5) :
    injectVMOption s r st
      = (some (injectFull s r st), injectFull s r st) := by
  dsimp only [injectVMOption]
  rw [if_pos h0, if_neg (by omega)]
  rfl

lemma injectVMOption_gt5 (s : Scope) (r : VirtualMachineCreateOptions)
    (st : String) (h5 : 5 < s.hardware.extraDisks.length) :
    injectVMOption s r st = (none, injectOverwrite s r st) := by
  have h0 : 0 < s.hardware.extraDisks.length := by omega
  dsimp only [injectVMOption]
  rw [if_pos h0, if_pos h5]
  rfl

lemma scsiExt {d1 d2 : Scsi} (h0 : d1.scsi0 = d2.scsi0)
    (h1 : d1.scsi1 = d2.scsi1) (h2 : d1.scsi2 = d2.scsi2)
    (h3 : d1.scsi3 = d2.scsi3) (h4 : d1.scsi4 = d2.scsi4)
    (h5 : d1.scsi5 = d2.scsi5) (h6 : d1.scsi6 = d2.scsi6) : d1 = d2 := by
  cases d1
  cases d2
  simp_all

set_option maxHeartbeats 1600000 in
lemma injectorLoop_idem (l : List ExtraDisk) (h : l.length ≤ 5) (d : Scsi) :
    injectorLoop (injectorLoop d 0 l) 0 l = injectorLoop d 0 l := by
  rcases l with _ | ⟨a, _ | ⟨b, _ | ⟨c, _ | ⟨e, _ | ⟨f, _ | ⟨g, rest⟩⟩⟩⟩⟩⟩
  · rfl
  · rfl
  · rfl
  · rfl
  · rfl
  · rfl
  · simp only [List.length_cons] at h
    omega

lemma injectOverwrite_idem (s : Scope) (r : VirtualMachineCreateOptions)
    (st : String) :
    injectOverwrite s (injectOverwrite s r st) st = injectOverwrite s r st :=
  rfl

lemma vmUpdate_self (r : VirtualMachineCreateOptions) (A : Ide) (st : String)
    (sc : Scsi) (hA : r.ide = A) (hst : r.storage = st) (hsc : r.scsi = sc) :
    ({ r with ide := A, storage := st, scsi := sc }
      : VirtualMachineCreateOptions) = r := by
  subst hA hst hsc
  rfl

lemma injectOverwrite_injectFull (s : Scope) (r : VirtualMachineCreateOptions)
    (st : String) :
    injectOverwrite s (injectFull s r st) st = injectFull s r st := by
  have hL := injectorLoop_scsi0_eq s.hardware.extraDisks
    (injectOverwrite s r st).scsi 0
  refine vmUpdate_self _ _ _ _ rfl rfl (Eq.symm ?_)
  exact scsiExt hL.symm rfl rfl rfl rfl rfl rfl

lemma injectFull_idem (s : Scope) (r : VirtualMachineCreateOptions)
    (st : String) (h5 : s.hardware.extraDisks.length ≤ 5) :
    injectFull s (injectFull s r st) st = injectFull s r st := by
  conv_lhs => rw [injectFull]
  rw [injectOverwrite_injectFull]
  rw [show (injectFull s r st).scsi
      = injectorLoop (injectOverwrite s r st).scsi 0 s.hardware.extraDisks
    from rfl]
  rw [injectorLoop_idem _ h5]
  rfl

/-- C5 — The Storage Injector is idempotent: a second application with the
same finalized storage value yields the same returned value and the same
mutated request state as the first application. -/
theorem qemu_c5_inject_idempotent (s : Scope)
    (r : VirtualMachineCreateOptions) (storage : String) :
    injectVMOption s (injectVMOption s r storage).2 storage
      = injectVMOption s r storage := by
  rcases Nat.eq_zero_or_pos s.hardware.extraDisks.length with h0 | h0
  · rw [injectVMOption_zero s r storage h0]
    rw [show (some (injectOverwrite s r storage), injectOverwrite s r storage).2
        = injectOverwrite s r storage from rfl]
    rw [injectVMOption_zero s (injectOverwrite s r storage) storage h0,
      injectOverwrite_idem]
  · rcases le_or_lt s.hardware.extraDisks.length 5 with h5 | h5
    · rw [injectVMOption_le5 s r storage h0 h5]
      rw [show (some (injectFull s r storage), injectFull s r storage).2
          = injectFull s r storage from rfl]
      rw [injectVMOption_le5 s (injectFull s r storage) storage h0 h5,
        injectFull_idem s r storage h5]
    · rw [injectVMOption_gt5 s r storage h5]
      rw [show ((none : Option VirtualMachineCreateOptions),
            injectOverwrite s r storage).2 = injectOverwrite s r storage
        from rfl]
      rw [injectVMOption_gt5 s (injectOverwrite s r storage) storage h5,
        injectOverwrite_idem]

lemma builderLoop_mk_scsi0 (v w s1 s2 s3 s4 s5 s6 : String) (i : Nat)
    (l : List ExtraDisk) :
    builderLoop ⟨v, s1, s2, s3, s4, s5, s6⟩ i l
      = { builderLoop ⟨w, s1, s2, s3, s4, s5, s6⟩ i l with scsi0 := v } := by
  rw [show (⟨v, s1, s2, s3, s4, s5, s6⟩ : Scsi)
      = { (⟨w, s1, s2, s3, s4, s5, s6⟩ : Scsi) with scsi0 := v } from rfl]
  exact builderLoop_scsi0_comm l _ v i

lemma injectOverwrite_gen (t s : Scope) (p f : String) :
    injectOverwrite t (generateVMOptions { s with storage := p }) f
      = injectOverwrite t (generateVMOptions s) f := by
  dsimp only [injectOverwrite, generateVMOptions]
  rw [builderLoop_mk_scsi0 (p ++ ":0,import-from=" ++ rawImageFilePath s.image)
      (s.storage ++ ":0,import-from=" ++ rawImageFilePath s.image)
      "" "" "" "" "" "" 0]

lemma injectFull_gen (t s : Scope) (p f : String) :
    injectFull t (generateVMOptions { s with storage := p }) f
      = injectFull t (generateVMOptions s) f := by
  dsimp only [injectFull]
  rw [injectOverwrite_gen]

lemma injectVMOption_gen (t s : Scope) (p f : String) :
    injectVMOption t (generateVMOptions { s with storage := p }) f
      = injectVMOption t (generateVMOptions s) f := by
  rcases Nat.eq_zero_or_pos t.hardware.extraDisks.length with h0 | h0
  · rw [injectVMOption_zero t _ _ h0, injectVMOption_zero t _ _ h0,
      injectOverwrite_gen]
  · rcases le_or_lt t.hardware.extraDisks.length 5 with h5 | h5
    · rw [injectVMOption_le5 t _ _ h0 h5, injectVMOption_le5 t _ _ h0 h5,
        injectFull_gen]
    · rw [injectVMOption_gt5 t _ _ h5, injectVMOption_gt5 t _ _ h5,
        injectOverwrite_gen]

lemma injectVMOption_storage_irrel1 (s : Scope) (p : String)
    (x : VirtualMachineCreateOptions) (f : String) :
    injectVMOption { s with storage := p } x f = injectVMOption s x f := rfl

lemma injectVMOption_storage_irrel2 (s : Scope) (p n : String)
    (vi : Option Nat) (x : VirtualMachineCreateOptions) (f : String) :
    injectVMOption { s with storage := p, nodeName := n, vmid := vi } x f
      = injectVMOption { s with nodeName := n, vmid := vi } x f := rfl

/-- C7 — The provisional image-storage placeholder used by the build pass
is entirely discarded after injection: build-then-inject yields identical
results for any two placeholder values, and (whenever placement succeeds)
the whole create sequence is placeholder-independent. -/
theorem qemu_c7_provisional_discarded (s : Scope) (p1 p2 fs : String) :
    (injectVMOption { s with storage := p1 }
        (generateVMOptions { s with storage := p1 }) fs
      = injectVMOption { s with storage := p2 }
          (generateVMOptions { s with storage := p2 }) fs)
    ∧ (∀ (env : Env) (res : ScheduleResult), env.schedule = .ok res →
        createQEMU env { s with storage := p1 }
          = createQEMU env { s with storage := p2 }) := by
  constructor
  · rw [injectVMOption_storage_irrel1 s p1, injectVMOption_storage_irrel1 s p2,
      injectVMOption_gen s s p1 fs, injectVMOption_gen s s p2 fs]
  · intro env res hres
    cases hci : env.cloudImage with
    | some e =>
        simp only [createQEMU, hres, hci]
        rw [injectVMOption_storage_irrel2 s p1 res.node (some res.vmid),
          injectVMOption_storage_irrel2 s p2 res.node (some res.vmid),
          injectVMOption_gen _ s p1 res.storage,
          injectVMOption_gen _ s p2 res.storage]
    | none =>
        cases hcv : env.createVM with
        | error e2 =>
            simp only [createQEMU, hres, hci, hcv]
            rw [injectVMOption_storage_irrel2 s p1 res.node (some res.vmid),
              injectVMOption_storage_irrel2 s p2 res.node (some res.vmid),
              injectVMOption_gen _ s p1 res.storage,
              injectVMOption_gen _ s p2 res.storage]
        | ok vm =>
            simp only [createQEMU, hres, hci, hcv]
            rw [injectVMOption_storage_irrel2 s p1 res.node (some res.vmid),
              injectVMOption_storage_irrel2 s p2 res.node (some res.vmid),
              injectVMOption_gen _ s p1 res.storage,
              injectVMOption_gen _ s p2 res.storage]

lemma generateVMOptions_scsi (s : Scope) :
    (generateVMOptions s).scsi
      = builderLoop
          ⟨s.storage ++ ":0,import-from=" ++ rawImageFilePath s.image,
            "", "", "", "", "", ""⟩ 0
          (if s.hardware.extraDisks.length > 5
            then s.hardware.extraDisks.take 6 else s.hardware.extraDisks) :=
  rfl

lemma builderLoop_slot (base : Scsi) (l : List ExtraDisk) (h6 : l.length ≤ 6)
    (j : Nat) (hj : j < l.length) :
    scsiSlot (builderLoop base 0 l) (j + 1)
      = extraDiskString (l.get ⟨j, hj⟩) j := by
  rcases l with _ | ⟨a, _ | ⟨b, _ | ⟨c, _ | ⟨d, _ | ⟨e, _ | ⟨f, _ | ⟨g, rest⟩⟩⟩⟩⟩⟩⟩
  · exact absurd hj (by simp)
  · simp only [List.length_cons, List.length_nil] at hj
    interval_cases j <;> rfl
  · simp only [List.length_cons, List.length_nil] at hj
    interval_cases j <;> rfl
  · simp only [List.length_cons, List.length_nil] at hj
    interval_cases j <;> rfl
  · simp only [List.length_cons, List.length_nil] at hj
    interval_cases j <;> rfl
  · simp only [List.length_cons, List.length_nil] at hj
    interval_cases j <;> rfl
  · simp only [List.length_cons, List.length_nil] at hj
    interval_cases j <;> rfl
  · simp only [List.length_cons] at h6
    omega

lemma injectorLoop_slot (base : Scsi) (l : List ExtraDisk) (h5 : l.length ≤ 5)
    (j : Nat) (hj : j < l.length) :
    scsiSlot (injectorLoop base 0 l) (j + 1)
      = extraDiskString (l.get ⟨j, hj⟩) j := by
  rcases l with _ | ⟨a, _ | ⟨b, _ | ⟨c, _ | ⟨d, _ | ⟨e, _ | ⟨f, rest⟩⟩⟩⟩⟩⟩
  · exact absurd hj (by simp)
  · simp only [List.length_cons, List.length_nil] at hj
    interval_cases j <;> rfl
  · simp only [List.length_cons, List.length_nil] at hj
    interval_cases j <;> rfl
  · simp only [List.length_cons, List.length_nil] at hj
    interval_cases j <;> rfl
  · simp only [List.length_cons, List.length_nil] at hj
    interval_cases j <;> rfl
  · simp only [List.length_cons, List.length_nil] at hj
    interval_cases j <;> rfl
  · simp only [List.length_cons] at h5
    omega

lemma generateVMOptions_slot (s : Scope) (j : Nat)
    (hj : j < s.hardware.extraDisks.length) (h6 : j < 6) :
    scsiSlot (generateVMOptions s).scsi (j + 1)
      = extraDiskString (s.hardware.extraDisks.get ⟨j, hj⟩) j := by
  rw [generateVMOptions_scsi]
  by_cases h5 : s.hardware.extraDisks.length > 5
  · rw [if_pos h5]
    have hlen : (s.hardware.extraDisks.take 6).length
        = min 6 s.hardware.extraDisks.length := List.length_take 6 _
    have hj' : j < (s.hardware.extraDisks.take 6).length := by
      rw [hlen]; omega
    rw [builderLoop_slot _ _ (by rw [hlen]; omega) j hj']
    congr 1
    simp [List.get_eq_getElem, List.getElem_take]
  · rw [if_neg h5]
    exact builderLoop_slot _ _ (by omega) j hj

lemma injectVMOption_slot (s : Scope) (r : VirtualMachineCreateOptions)
    (f : String) (h0 : 0 < s.hardware.extraDisks.length)
    (h5 : s.hardware.extraDisks.length ≤ 5) (j : Nat)
    (hj : j < s.hardware.extraDisks.length) :
    scsiSlot (injectVMOption s r f).2.scsi (j + 1)
      = extraDiskString (s.hardware.extraDisks.get ⟨j, hj⟩) j := by
  rw [injectVMOption_le5 s r f h0 h5]
  rw [show ((some (injectFull s r f), injectFull s r f)).2.scsi
      = injectorLoop (injectOverwrite s r f).scsi 0 s.hardware.extraDisks
    from rfl]
  exact injectorLoop_slot _ _ h5 j hj

lemma generateVMOptions_take6 (s : Scope)
    (h : 6 < s.hardware.extraDisks.length) :
    generateVMOptions s
      = generateVMOptions
          { s with hardware :=
              { s.hardware with extraDisks := s.hardware.extraDisks.take 6 } } := by
  dsimp only [generateVMOptions]
  rw [if_pos (show s.hardware.extraDisks.length > 5 by omega),
    if_pos (show (s.hardware.extraDisks.take 6).length > 5 by
      rw [List.length_take]; omega),
    List.take_take, Nat.min_self]

/-- C3 — Overflowing extra-disk sequences are truncated, not rejected: with
more than 6 declared extra disks the Option Builder produces exactly the
request of the first 6 (positions 0..5 fill slots 1..6, the rest leave no
trace in the request, and no error is possible since the builder is total);
with at most 6 disks every disk is assigned to its slot. -/
theorem qemu_c3_builder_truncation (s : Scope) :
    (∀ (h : 6 < s.hardware.extraDisks.length),
      generateVMOptions s
        = generateVMOptions
            { s with hardware :=
                { s.hardware with extraDisks := s.hardware.extraDisks.take 6 } }
      ∧ ∀ j (hj : j < 6),
          scsiSlot (generateVMOptions s).scsi (j + 1)
            = extraDiskString (s.hardware.extraDisks.get ⟨j, by omega⟩) j)
    ∧ (s.hardware.extraDisks.length ≤ 6 →
      ∀ j (hj : j < s.hardware.extraDisks.length),
        scsiSlot (generateVMOptions s).scsi (j + 1)
          = extraDiskString (s.hardware.extraDisks.get ⟨j, hj⟩) j) := by
  constructor
  · intro h
    refine ⟨generateVMOptions_take6 s h, ?_⟩
    intro j hj
    exact generateVMOptions_slot s j (by omega) hj
  · intro h6 j hj
    exact generateVMOptions_slot s j hj (by omega)

/-- C4 (amended) — Every honored extra disk at position i is rendered at
slot i+1 as `<P>:<N>,<S>`: the declared size follows the comma directly,
with no literal "size=" inserted by the builder or the injector. -/
theorem qemu_c4_extradisk_wire_format (s : Scope)
    (r : VirtualMachineCreateOptions) (f : String) :
    (∀ j (hj : j < s.hardware.extraDisks.length), j < 6 →
      scsiSlot (generateVMOptions s).scsi (j + 1)
        = (s.hardware.extraDisks.get ⟨j, hj⟩).storage ++ ":"
            ++ toString (j + 1) ++ "," ++ (s.hardware.extraDisks.get ⟨j, hj⟩).size)
    ∧ (0 < s.hardware.extraDisks.length → s.hardware.extraDisks.length ≤ 5 →
      ∀ j (hj : j < s.hardware.extraDisks.length),
        scsiSlot (injectVMOption s r f).2.scsi (j + 1)
          = (s.hardware.extraDisks.get ⟨j, hj⟩).storage ++ ":"
              ++ toString (j + 1) ++ "," ++ (s.hardware.extraDisks.get ⟨j, hj⟩).size) := by
  constructor
  · intro j hj h6
    exact generateVMOptions_slot s j hj h6
  · intro h0 h5 j hj
    exact injectVMOption_slot s r f h0 h5 j hj

/-- C4 counterexample — the builder renders an extra disk declared as
{storage "local", size "10G"} at slot 1 as the wire string "local:1,10G",
which is not the claimed "local:1,size=10G". -/
theorem qemu_c4_counterexample :
    (generateVMOptions (exScope [⟨"local", "10G"⟩])).scsi.scsi1 = "local:1,10G"
    ∧ ("local:1,10G" : String) ≠ "local:1,size=10G" := by
  exact ⟨rfl, by decide⟩

/-- C2 (amended) — For at most 5 declared extra disks the Storage Injector
re-derives each slot i+1 (slots 1..5) from that disk's own declared pool
and size and returns the injected request; for 6 or more (length 6 being
accepted by the builder) it returns nil and leaves every extra-disk slot
of the request untouched. -/
theorem qemu_c2_injector_slots (s : Scope) (r : VirtualMachineCreateOptions)
    (f : String) :
    (∀ (h0 : 0 < s.hardware.extraDisks.length)
        (h5 : s.hardware.extraDisks.length ≤ 5),
      (injectVMOption s r f).1 = some ((injectVMOption s r f).2)
      ∧ ∀ j (hj : j < s.hardware.extraDisks.length),
          scsiSlot (injectVMOption s r f).2.scsi (j + 1)
            = extraDiskString (s.hardware.extraDisks.get ⟨j, hj⟩) j)
    ∧ (5 < s.hardware.extraDisks.length →
      (injectVMOption s r f).1 = none
      ∧ ∀ k, 1 ≤ k → k ≤ 6 →
          scsiSlot (injectVMOption s r f).2.scsi k = scsiSlot r.scsi k) := by
  constructor
  · intro h0 h5
    refine ⟨?_, ?_⟩
    · rw [injectVMOption_le5 s r f h0 h5]
    · intro j hj
      exact injectVMOption_slot s r f h0 h5 j hj
  · intro hgt
    refine ⟨?_, ?_⟩
    · rw [injectVMOption_gt5 s r f hgt]
    · intro k h1 h6
      rw [injectVMOption_gt5 s r f hgt]
      interval_cases k <;> rfl

/-- C2 counterexample — with exactly 6 declared extra disks (a sequence the
builder accepts in full) the injector returns nil rather than the injected
request, and slot 6 is not re-derived from the sixth disk. -/
theorem qemu_c2_counterexample :
    (injectVMOption (exScope exDisks6) (generateVMOptions (exScope [])) "fast").1
        = none
    ∧ (injectVMOption (exScope exDisks6)
          (generateVMOptions (exScope [])) "fast").2.scsi.scsi6 = ""
    ∧ ("" : String) ≠ extraDiskString ⟨"ceph", "60G"⟩ 5 := by
  refine ⟨rfl, rfl, by decide⟩

/-- C10 — With more than 5 declared extra disks the injector signals its
error (nil) only after the cloud-init slot, the storage field and the
root-disk slot are already overwritten, while the extra-disk slots are
left untouched; and createQEMU discards that nil, so the create sequence
proceeds to image staging and the platform create call with the partially
injected request instead of failing. -/
theorem qemu_c10_partial_injection (s : Scope)
    (r : VirtualMachineCreateOptions) (f : String)
    (hgt : 5 < s.hardware.extraDisks.length) :
    (injectVMOption s r f).1 = none
    ∧ (injectVMOption s r f).2
        = { r with
            ide := { r.ide with ide2 := "file=" ++ f ++ ":cloudinit,media=cdrom" }
            storage := f
            scsi := { r.scsi with
              scsi0 := f ++ ":0,import-from=" ++ rawImageFilePath s.image } }
    ∧ (∀ (env : Env) (res : ScheduleResult) (vm : VirtualMachine),
        env.schedule = .ok res → env.cloudImage = none →
        env.createVM = .ok vm →
        (createQEMU env s).outcome = .ok vm
        ∧ (createQEMU env s).vmoption
            = some ((injectVMOption
                { s with nodeName := res.node, vmid := some res.vmid }
                (generateVMOptions s) res.storage).2)
        ∧ (createQEMU env s).trace
            = [.build, .placement, .inject, .imageStage, .createVM]) := by
  refine ⟨?_, ?_, ?_⟩
  · rw [injectVMOption_gt5 s r f hgt]
  · rw [injectVMOption_gt5 s r f hgt]
    rfl
  · intro env res vm h1 h2 h3
    simp only [createQEMU, h1, h2, h3]
    exact ⟨trivial, trivial, trivial⟩

/-- C9 — createQEMU runs build → placement → storage injection → image
staging → platform create in that fixed order, each failing step returning
its error unchanged with no later step invoked. -/
theorem qemu_c9_create_sequence (env : Env) (s : Scope) :
    (∀ e, env.schedule = .error e →
      createQEMU env s
        = ⟨.error e, s, some (generateVMOptions s), [.build, .placement]⟩)
    ∧ (∀ res e, env.schedule = .ok res → env.cloudImage = some e →
      (createQEMU env s).outcome = .error e
      ∧ (createQEMU env s).trace = [.build, .placement, .inject, .imageStage])
    ∧ (∀ res e, env.schedule = .ok res → env.cloudImage = none →
        env.createVM = .error e →
      (createQEMU env s).outcome = .error e
      ∧ (createQEMU env s).trace
          = [.build, .placement, .inject, .imageStage, .createVM])
    ∧ (∀ res vm, env.schedule = .ok res → env.cloudImage = none →
        env.createVM = .ok vm →
      (createQEMU env s).outcome = .ok vm
      ∧ (createQEMU env s).trace
          = [.build, .placement, .inject, .imageStage, .createVM]) := by
  refine ⟨?_, ?_, ?_, ?_⟩
  · intro e h1
    simp only [createQEMU, h1]
  · intro res e h1 h2
    simp only [createQEMU, h1, h2]
    exact ⟨trivial, trivial⟩
  · intro res e h1 h2 h3
    simp only [createQEMU, h1, h2, h3]
    exact ⟨trivial, trivial⟩
  · intro res vm h1 h2 h3
    simp only [createQEMU, h1, h2, h3]
    exact ⟨trivial, trivial⟩

/-- C1 (amended) — With no persisted VM ID, when the platform reports a VM
of the desired name exists the reconciler fails with the distinct
duplicate-instance error; when the existence check itself errors (without
reporting existence) it fails with that error propagated unchanged; in
both cases the trace is only the existence check, so the create operation
and the whole creation sequence are never invoked. -/
theorem qemu_c1_duplicate_guard (env : Env) (s : Scope)
    (h : s.vmid = none) :
    (∀ eo, env.vmExists = (true, eo) →
      reconcileQEMU env s
        = ⟨.error (duplicateErr s.name), s, none, [.existsCheck]⟩)
    ∧ (∀ ce, env.vmExists = (false, some ce) →
      reconcileQEMU env s = ⟨.error ce, s, none, [.existsCheck]⟩) := by
  constructor
  · intro eo hex
    simp only [reconcileQEMU, getQEMU, h, hex]
    rfl
  · intro ce hex
    simp only [reconcileQEMU, getQEMU, h, hex]
    rfl

/-- C1 counterexample — when the existence check errors ("boom") with no
persisted VM ID, Reconcile fails with that error, which is not the
duplicate-instance error `qemu vm-a already exists` the claim names
(creation is still never invoked). -/
theorem qemu_c1_counterexample :
    (reconcileQEMU exEnvExistsErr (exScope [])).outcome = .error (.err "boom")
    ∧ PError.err "boom" ≠ duplicateErr "vm-a"
    ∧ Step.createVM ∉ (reconcileQEMU exEnvExistsErr (exScope [])).trace
    ∧ Step.build ∉ (reconcileQEMU exEnvExistsErr (exScope [])).trace := by
  refine ⟨rfl, by decide, ?_, ?_⟩
  · rw [show (reconcileQEMU exEnvExistsErr (exScope [])).trace
        = [.existsCheck] from rfl]
    decide
  · rw [show (reconcileQEMU exEnvExistsErr (exScope [])).trace
        = [.existsCheck] from rfl]
    decide

/-- C8 (amended) — With a persisted VM ID whose lookup succeeds, the
reconciler never invokes the Placement Client or the platform create
operation and refreshes the scope identity from the live VM's
{VM ID, Node}; when the subsequent identity persistence succeeds it
returns the live VM with trace [lookup, patch]. -/

theorem qemu_c8_lookup_success (env : Env) (s : Scope) (id : Nat)
    (vm : VirtualMachine) (h1 : s.vmid = some id)
    (h2 : env.vmLookup = .ok vm) :
    (reconcileQEMU env s).scope.vmid = some vm.vm.vmid
    ∧ (reconcileQEMU env s).scope.nodeName = vm.node
    ∧ Step.placement ∉ (reconcileQEMU env s).trace
    ∧ Step.createVM ∉ (reconcileQEMU env s).trace
    ∧ (env.patch = none →
        reconcileQEMU env s
          = ⟨.ok vm, { s with vmid := some vm.vm.vmid, nodeName := vm.node },
              none, [.lookup, .patch]⟩) := by
  refine ⟨?_, ?_, ?_, ?_, ?_⟩
  · simp only [reconcileQEMU, getQEMU, h1, h2, persistIdentity]
    cases env.patch with
    | some e => rfl
    | none => rfl
  · simp only [reconcileQEMU, getQEMU, h1, h2, persistIdentity]
    cases env.patch with
    | some e => rfl
    | none => rfl
  · simp only [reconcileQEMU, getQEMU, h1, h2, persistIdentity]
    cases env.patch with
    | some e => exact (show Step.placement ∉ [Step.lookup] ++ [Step.patch] by decide)
    | none => exact (show Step.placement ∉ [Step.lookup] ++ [Step.patch] by decide)
  · simp only [reconcileQEMU, getQEMU, h1, h2, persistIdentity]
    cases env.patch with
    | some e => exact (show Step.createVM ∉ [Step.lookup] ++ [Step.patch] by decide)
    | none => exact (show Step.createVM ∉ [Step.lookup] ++ [Step.patch] by decide)
  · intro hpn
    simp only [reconcileQEMU, getQEMU, h1, h2, persistIdentity, hpn]
    rfl

/-- C8 counterexample — with a persisted VM ID and a successful lookup but
a failing identity persistence, Reconcile returns the persistence error,
not the refreshed identity, so the claim's unconditional "returns the
identity refreshed from the live VM" fails at this input. -/
theorem qemu_c8_counterexample :
    (reconcileQEMU exEnvPatchFail
        { exScope [] with vmid := some 100 }).outcome
      = .error (.err "patch failed")
    ∧ (Except.error (PError.err "patch failed")
        : Except PError VirtualMachine) ≠ .ok exVM := by
  exact ⟨rfl, fun hcon => Except.noConfusion hcon⟩

/-- Witness for C1 at concrete inputs: both guard branches. -/
theorem qemu_c1_witness :
    reconcileQEMU exEnvExistsDup (exScope [])
      = ⟨.error (duplicateErr "vm-a"), exScope [], none, [.existsCheck]⟩
    ∧ reconcileQEMU exEnvExistsErr (exScope [])
      = ⟨.error (.err "boom"), exScope [], none, [.existsCheck]⟩ :=
  ⟨(qemu_c1_duplicate_guard exEnvExistsDup (exScope []) rfl).1 none rfl,
    (qemu_c1_duplicate_guard exEnvExistsErr (exScope []) rfl).2 (.err "boom") rfl⟩

/-- Witness for C2 at concrete inputs: a 2-disk scope is injected and
returned, a 6-disk scope yields the nil return. -/
theorem qemu_c2_witness :
    (injectVMOption (exScope exDisks2) (generateVMOptions (exScope [])) "fast").1
        = some ((injectVMOption (exScope exDisks2)
            (generateVMOptions (exScope [])) "fast").2)
    ∧ scsiSlot (injectVMOption (exScope exDisks2)
          (generateVMOptions (exScope [])) "fast").2.scsi 1
        = extraDiskString ⟨"local", "10G"⟩ 0
    ∧ (injectVMOption (exScope exDisks6)
          (generateVMOptions (exScope [])) "fast").1 = none :=
  ⟨((qemu_c2_injector_slots (exScope exDisks2) (generateVMOptions (exScope []))
      "fast").1 (by decide) (by decide)).1,
    ((qemu_c2_injector_slots (exScope exDisks2) (generateVMOptions (exScope []))
      "fast").1 (by decide) (by decide)).2 0 (by decide),
    ((qemu_c2_injector_slots (exScope exDisks6) (generateVMOptions (exScope []))
      "fast").2 (by decide)).1⟩

/-- Witness for C3 at concrete inputs: a 7-disk scope builds the same
request as its first 6 disks with slot 6 from disk position 5; a 6-disk
scope assigns slot 1 from disk position 0. -/
theorem qemu_c3_witness :
    generateVMOptions (exScope exDisks7)
      = generateVMOptions
          { exScope exDisks7 with hardware :=
              { (exScope exDisks7).hardware with
                extraDisks := (exScope exDisks7).hardware.extraDisks.take 6 } }
    ∧ scsiSlot (generateVMOptions (exScope exDisks7)).scsi 6
        = extraDiskString ⟨"ceph", "60G"⟩ 5
    ∧ scsiSlot (generateVMOptions (exScope exDisks6)).scsi 1
        = extraDiskString ⟨"local", "10G"⟩ 0 :=
  ⟨((qemu_c3_builder_truncation (exScope exDisks7)).1 (by decide)).1,
    ((qemu_c3_builder_truncation (exScope exDisks7)).1 (by decide)).2 5 (by decide),
    (qemu_c3_builder_truncation (exScope exDisks6)).2 (by decide) 0 (by decide)⟩

/-- Witness for C4 (amended) at concrete inputs. -/
theorem qemu_c4_witness :
    scsiSlot (generateVMOptions (exScope exDisks2)).scsi 1 = "local:1,10G"
    ∧ scsiSlot (injectVMOption (exScope exDisks2)
          (generateVMOptions (exScope [])) "fast").2.scsi 2 = "local:2,20G" :=
  ⟨(qemu_c4_extradisk_wire_format (exScope exDisks2)
      (generateVMOptions (exScope [])) "fast").1 0 (by decide) (by decide),
    (qemu_c4_extradisk_wire_format (exScope exDisks2)
      (generateVMOptions (exScope [])) "fast").2 (by decide) (by decide) 1 (by decide)⟩

/-- Witness for C7 at concrete inputs: two provisional placeholders yield
the same create sequence under a successful placement. -/
theorem qemu_c7_witness :
    createQEMU exEnvOk { exScope [] with storage := "prov1" }
      = createQEMU exEnvOk { exScope [] with storage := "prov2" } :=
  (qemu_c7_provisional_discarded (exScope []) "prov1" "prov2" "fast").2
    exEnvOk exRes rfl

/-- Witness for C8 (amended) at concrete inputs. -/
theorem qemu_c8_witness :
    (reconcileQEMU exEnvLookup
        { exScope [] with vmid := some 100 }).scope.vmid = some 100
    ∧ Step.placement ∉ (reconcileQEMU exEnvLookup
        { exScope [] with vmid := some 100 }).trace
    ∧ reconcileQEMU exEnvLookup { exScope [] with vmid := some 100 }
        = ⟨.ok exVM, { exScope [] with vmid := some 100, nodeName := "node1" },
            none, [.lookup, .patch]⟩ := by
  have h := qemu_c8_lookup_success exEnvLookup
    { exScope [] with vmid := some 100 } 100 exVM rfl rfl
  exact ⟨h.1, h.2.2.1, h.2.2.2.2 rfl⟩

/-- Witness for C9 at concrete inputs: one environment per failing step and
one fully successful run. -/
theorem qemu_c9_witness :
    createQEMU exEnvSchedErr (exScope [])
      = ⟨.error (.err "nosched"), exScope [],
          some (generateVMOptions (exScope [])), [.build, .placement]⟩
    ∧ (createQEMU exEnvImgErr (exScope [])).outcome = .error (.err "imgfail")
    ∧ (createQEMU exEnvImgErr (exScope [])).trace
        = [.build, .placement, .inject, .imageStage]
    ∧ (createQEMU exEnvCreateErr (exScope [])).outcome
        = .error (.err "createfail")
    ∧ (createQEMU exEnvOk (exScope [])).outcome = .ok exVM :=
  ⟨(qemu_c9_create_sequence exEnvSchedErr (exScope [])).1 (.err "nosched") rfl,
    ((qemu_c9_create_sequence exEnvImgErr (exScope [])).2.1
      exRes (.err "imgfail") rfl rfl).1,
    ((qemu_c9_create_sequence exEnvImgErr (exScope [])).2.1
      exRes (.err "imgfail") rfl rfl).2,
    ((qemu_c9_create_sequence exEnvCreateErr (exScope [])).2.2.1
      exRes (.err "createfail") rfl rfl rfl).1,
    ((qemu_c9_create_sequence exEnvOk (exScope [])).2.2.2
      exRes exVM rfl rfl rfl).1⟩

/-- Witness for C10 at concrete inputs: a 6-disk scope still creates
successfully with the partially injected request. -/
theorem qemu_c10_witness :
    (injectVMOption (exScope exDisks6)
        (generateVMOptions (exScope [])) "fast").1 = none
    ∧ (createQEMU exEnvOk (exScope exDisks6)).outcome = .ok exVM
    ∧ (createQEMU exEnvOk (exScope exDisks6)).trace
        = [.build, .placement, .inject, .imageStage, .createVM] := by
  have h := qemu_c10_partial_injection (exScope exDisks6)
    (generateVMOptions (exScope [])) "fast" (by decide)
  exact ⟨h.1, (h.2.2 exEnvOk exRes exVM rfl rfl rfl).1,
    (h.2.2 exEnvOk exRes exVM rfl rfl rfl).2.2⟩
